import Mathlib

/-!
Verification development for the Akshare-MCP repository.

The repository exposes three near-identical MCP tool handlers
(`stock_us_hist`, `stock_hk_hist`, `stock_zh_a_hist` in
`src/akshare_mcp_server.py`, with `src/tools/stock_hk_hist.py` an identical
copy of the HK handler): each validates the `period` field, validates the
two date fields with Python's `datetime.strptime(s, "%Y%m%d")`, invokes the
external akshare provider, rejects empty results, and renders a Markdown
report; every failure is returned as the JSON string
`{"error": ..., "code": ...}` (braces elided here).

The shallow embedding below translates each handler into a total Lean
function.  The external provider is a parameter (a function from the five
request fields to either an exception message or a data frame); the list of
provider invocations (with their exact arguments) is returned alongside the
response string so that "the provider is never called" claims are statable.
Python exceptions are modelled with `Except String`; the outer
`try/except Exception` of each handler corresponds to the handler being a
total function whose every branch produces a plain string.
-/

/-- One tabular result from the provider: column labels plus rows of
rendered cells.  Models the `pandas.DataFrame` returned by the akshare
calls at the granularity the handlers observe (column names, row count,
cell text). -/
structure DataFrame where
  columns : List String
  rows : List (List String)
deriving DecidableEq

/-- Models `pandas.DataFrame.empty`: true when the frame has no rows or no
columns. -/
def DataFrame.emptyB (df : DataFrame) : Bool :=
  df.rows.isEmpty || df.columns.isEmpty

/-- The five positional arguments each handler forwards to its akshare
fetch call: (symbol, period, start_date, end_date, adjust). -/
abbrev CallArgs := String × String × String × String × String

/-- A provider behaviour: given the five request fields, either raise an
exception (modelled as `Except.error` carrying `str(e)`) or return a data
frame. -/
abbrev ProvFun := String → String → String → String → String → Except String DataFrame

/-- Numeric value of a decimal digit character. -/
def digitVal (c : Char) : Nat := c.toNat - 48

/-- Decidable test for an ASCII decimal digit. -/
def isDigitB (c : Char) : Bool := 48 ≤ c.toNat && c.toNat ≤ 57

/-- Models the CPython `_strptime` regex fragment for `%m`
(`1[0-2]|0[1-9]|[1-9]`) restricted to its two-character alternatives: a
month written with exactly two characters. -/
def month2 (a b : Char) : Option Nat :=
  if a == '1' && (b == '0' || b == '1' || b == '2') then some (10 + digitVal b)
  else if a == '0' && isDigitB b && b != '0' then some (digitVal b)
  else none

/-- The one-character alternative `[1-9]` of the `%m` regex. -/
def month1 (a : Char) : Option Nat :=
  if isDigitB a && a != '0' then some (digitVal a) else none

/-- Models the CPython `_strptime` regex fragment for `%d`
(`3[01]|[12]\d|0[1-9]|[1-9]`) required to consume the whole remaining
input (the `%d` directive is last in the format, and `strptime` rejects
unconverted trailing data). -/
def dayFull : List Char → Option Nat
  | [a, b] =>
    if a == '3' && (b == '0' || b == '1') then some (30 + digitVal b)
    else if (a == '1' || a == '2') && isDigitB b then some (10 * digitVal a + digitVal b)
    else if a == '0' && isDigitB b && b != '0' then some (digitVal b)
    else none
  | [a] => if isDigitB a && a != '0' then some (digitVal a) else none
  | _ => none

/-- Models CPython `datetime.strptime(s, "%Y%m%d")` up to (but not
including) calendar validation: `%Y` is exactly four digits, then `%m`
matches one or two characters (two-character alternatives tried first, as
in the regex `1[0-2]|0[1-9]|[1-9]`), then `%d` must consume the rest; on a
failed day match the engine backtracks to the one-character month.  Note
this accepts 6- and 7-character strings such as "202111" and "2021111",
exactly as CPython does. -/
def parseYmd (s : String) : Option (Nat × Nat × Nat) :=
  match s.toList with
  | c1 :: c2 :: c3 :: c4 :: a :: b :: rest =>
    if isDigitB c1 && isDigitB c2 && isDigitB c3 && isDigitB c4 then
      let y := 1000 * digitVal c1 + 100 * digitVal c2 + 10 * digitVal c3 + digitVal c4
      match month2 a b with
      | some mo =>
        match dayFull rest with
        | some d => some (y, mo, d)
        | none =>
          match month1 a, dayFull (b :: rest) with
          | some mo1, some d => some (y, mo1, d)
          | _, _ => none
      | none =>
        match month1 a, dayFull (b :: rest) with
        | some mo1, some d => some (y, mo1, d)
        | _, _ => none
    else none
  | _ => none

/-- Gregorian leap-year rule, as used by Python's `datetime`. -/
def isLeap (y : Nat) : Bool := (y % 4 == 0 && y % 100 != 0) || y % 400 == 0

/-- Days in a month, as used by Python's `datetime`. -/
def daysInMonth (y m : Nat) : Nat :=
  if m == 2 then (if isLeap y then 29 else 28)
  else if m == 4 || m == 6 || m == 9 || m == 11 then 30 else 31

/-- Calendar validation performed by the `datetime` constructor after the
regex match: year at least `MINYEAR = 1` (at most 9999 is automatic from
four digits), day within the month. -/
def validDate (y m d : Nat) : Bool :=
  1 ≤ y && 1 ≤ d && d ≤ daysInMonth y m

/-- Full model of `datetime.strptime(s, "%Y%m%d")` succeeding: the regex
parse of `parseYmd` followed by calendar validation. -/
def strptimeYmdOk (s : String) : Bool :=
  match parseYmd s with
  | some (y, m, d) => validDate y m d
  | none => false

/-- The date a string parses to, as the number `y * 10000 + m * 100 + d`
(0 when the string does not parse); used to compare two parsed dates. -/
def strptimeNum (s : String) : Nat :=
  match parseYmd s with
  | some (y, m, d) => y * 10000 + m * 100 + d
  | none => 0

/-- Hexadecimal digit character (lower case), for `\u00XX` escapes. -/
def hexDigit (n : Nat) : Char :=
  if n < 10 then Char.ofNat (48 + n) else Char.ofNat (87 + n)

/-- Models Python `json.dumps` escaping of one character with
`ensure_ascii=False`: quote, backslash and control characters are escaped,
everything else (including CJK) is kept verbatim. -/
def jsonEscapeChar (c : Char) : String :=
  if c == '"' then "\\\""
  else if c == '\\' then "\\\\"
  else if c == '\n' then "\\n"
  else if c == '\r' then "\\r"
  else if c == '\t' then "\\t"
  else if c == Char.ofNat 8 then "\\b"
  else if c == Char.ofNat 12 then "\\f"
  else if c.toNat < 32 then "\\u00" ++ String.mk [hexDigit (c.toNat / 16), hexDigit (c.toNat % 16)]
  else String.mk [c]

/-- Models Python `json.dumps` on a string value (without the quotes). -/
def jsonEscape (s : String) : String :=
  String.join (s.toList.map jsonEscapeChar)

/-- The closing part of the two-key error object: everything from the end
of the `error` value onwards, containing the `code` key and value. -/
def codeTail (c : String) : String :=
  "\", \"code\": \"" ++ (jsonEscape c ++ "\"\x7d")

/-- Models `json.dumps({"error": m, "code": c}, ensure_ascii=False)`: a
JSON object whose keys are exactly `error` and `code`, in that order. -/
def jsonDumps2 (m c : String) : String :=
  "\x7b\"error\": \"" ++ (jsonEscape m ++ codeTail c)

/-- The INVALID_PERIOD message used by all three handlers. -/
def periodMsg : String := "period参数必须是 \x27daily\x27, \x27weekly\x27, \x27monthly\x27 之一"

/-- The INVALID_DATE_FORMAT message used by all three handlers. -/
def dateMsg : String := "日期格式错误，请使用 YYYYMMDD 格式"

/-- The NO_DATA_FOUND message used by all three handlers. -/
def noDataMsg : String := "未找到数据，请检查股票代码或日期范围"

/-- Models `period not in ['daily', 'weekly', 'monthly']` (negated). -/
def validPeriod (p : String) : Bool :=
  p == "daily" || p == "weekly" || p == "monthly"

/-- Models the external `pd.to_datetime(cell).strftime("%Y-%m-%d")` on one
cell of the date column, on the two formats exercised here: an 8-digit
`YYYYMMDD` value is rewritten with dashes, an already dashed `YYYY-MM-DD`
value is kept; anything else raises (is an `Except.error`), which the
handler's outer `except` turns into API_ERROR. -/
def pdDateCell (s : String) : Except String String :=
  match s.toList with
  | [y1, y2, y3, y4, m1, m2, d1, d2] =>
    if isDigitB y1 && isDigitB y2 && isDigitB y3 && isDigitB y4 &&
        isDigitB m1 && isDigitB m2 && isDigitB d1 && isDigitB d2 &&
        validDate (1000 * digitVal y1 + 100 * digitVal y2 + 10 * digitVal y3 + digitVal y4)
          (10 * digitVal m1 + digitVal m2) (10 * digitVal d1 + digitVal d2) then
      Except.ok (String.mk [y1, y2, y3, y4, '-', m1, m2, '-', d1, d2])
    else Except.error ("Unknown datetime string format: " ++ s)
  | [y1, y2, y3, y4, h1, m1, m2, h2, d1, d2] =>
    if h1 == '-' && h2 == '-' && isDigitB y1 && isDigitB y2 && isDigitB y3 && isDigitB y4 &&
        isDigitB m1 && isDigitB m2 && isDigitB d1 && isDigitB d2 &&
        validDate (1000 * digitVal y1 + 100 * digitVal y2 + 10 * digitVal y3 + digitVal y4)
          (10 * digitVal m1 + digitVal m2) (10 * digitVal d1 + digitVal d2) then
      Except.ok s
    else Except.error ("Unknown datetime string format: " ++ s)
  | _ => Except.error ("Unknown datetime string format: " ++ s)

/-- Replace the cell at index `i` of a row by its normalized date form;
rows without an `i`-th cell are unrepresentable in pandas and are left
unchanged. -/
def normCell (i : Nat) (row : List String) : Except String (List String) :=
  match i, row with
  | _, [] => Except.ok []
  | 0, c :: cs => (pdDateCell c).map (· :: cs)
  | Nat.succ j, c :: cs => (normCell j cs).map (c :: ·)

/-- Models the date-column normalization block of each handler:
`if '日期' in df.columns: df['日期'] = pd.to_datetime(df['日期']).dt.strftime('%Y-%m-%d')`.
When no `日期` column exists the frame is unchanged; otherwise every cell
of that column is rewritten, the first failure raising. -/
def normalizeDates (df : DataFrame) : Except String DataFrame :=
  match df.columns.findIdx? (· == "日期") with
  | none => Except.ok df
  | some i => (df.rows.mapM (normCell i)).map (fun rs => DataFrame.mk df.columns rs)

/-- One rendered Markdown table line. -/
def mdRow (cells : List String) : String :=
  "| " ++ String.intercalate " | " cells ++ " |"

/-- Separator cell under a header cell. -/
def sepCell (c : String) : String := String.mk (List.replicate (c.length + 2) '-')

/-- The lines of the Markdown table produced by
`df.to_markdown(index=False, floatfmt='.2f')` (an external pandas/tabulate
call, modelled at the level of line structure): one header line, one
separator line, then one line per record. -/
def mdTableLines (cols : List String) (rows : List (List String)) : List String :=
  mdRow cols :: mdRow (cols.map sepCell) :: rows.map mdRow

/-- The Markdown table as one string. -/
def mdTable (cols : List String) (rows : List (List String)) : String :=
  String.intercalate "\n" (mdTableLines cols rows)

/-- Models the adjustment-label expression shared by the three handlers:
`'不复权' if adjust == '' else '前复权' if adjust == 'qfq' else '后复权'`. -/
def adjustLabel (adjust : String) : String :=
  if adjust == "" then "不复权" else if adjust == "qfq" then "前复权" else "后复权"

/-- The report f-string of `stock_us_hist` (lines 96-108 of
`src/akshare_mcp_server.py`), with `len(df)` the row count of the
normalized frame. -/
def usReport (symbol period start_date end_date adjust : String) (df : DataFrame) : String :=
  "# 美股历史行情数据\n\n**股票代码**: " ++ symbol ++
  "  \n**数据周期**: " ++ period ++
  "  \n**日期范围**: " ++ start_date ++ " ~ " ++ end_date ++
  "  \n**复权方式**: " ++ adjustLabel adjust ++
  "  \n**数据条数**: " ++ toString df.rows.length ++
  " 条  \n**货币单位**: " ++ "美元 (USD)" ++ "\n\n" ++
  mdTable df.columns df.rows ++ "\n\n" ++ "*数据来源：东方财富网*\n"

/-- The report f-string of `stock_hk_hist` (identical in
`src/akshare_mcp_server.py` lines 176-188 and `src/tools/stock_hk_hist.py`,
whose `\n` escapes inside the triple-quoted f-string yield the same
text). -/
def hkReport (symbol period start_date end_date adjust : String) (df : DataFrame) : String :=
  "# 港股历史行情数据\n\n**股票代码**: " ++ symbol ++
  "  \n**数据周期**: " ++ period ++
  "  \n**日期范围**: " ++ start_date ++ " ~ " ++ end_date ++
  "  \n**复权方式**: " ++ adjustLabel adjust ++
  "  \n**数据条数**: " ++ toString df.rows.length ++
  " 条  \n**货币单位**: " ++ "港元 (HKD)" ++ "\n\n" ++
  mdTable df.columns df.rows ++ "\n\n" ++ "*数据来源：东方财富网*\n"

/-- The report f-string of `stock_zh_a_hist` (lines 257-271 of
`src/akshare_mcp_server.py`); note the extra 成交量 metadata line after the
currency line and the extra footnote line. -/
def zhReport (symbol period start_date end_date adjust : String) (df : DataFrame) : String :=
  "# A股历史行情数据\n\n**股票代码**: " ++ symbol ++
  "  \n**数据周期**: " ++ period ++
  "  \n**日期范围**: " ++ start_date ++ " ~ " ++ end_date ++
  "  \n**复权方式**: " ++ adjustLabel adjust ++
  "  \n**数据条数**: " ++ toString df.rows.length ++
  " 条  \n**货币单位**: " ++ "人民币 (CNY)  \n**成交量单位**: 手 (1手=100股)" ++ "\n\n" ++
  mdTable df.columns df.rows ++ "\n\n" ++
  "*数据来源：东方财富网*  \n*注：成交量单位为手，成交额单位为元*\n"

/-- The handler for US stock history, `stock_us_hist` in
`src/akshare_mcp_server.py` lines 41-119.  Alongside the returned string it
returns the list of provider invocations with their exact arguments (the
source calls `ak.stock_us_hist` once, with the request fields unchanged).
Every branch returns a plain string: the outer `try/except Exception`
guarantees no exception escapes, and every failure string is
`json.dumps` of an object with keys exactly `error` and `code`. -/
def stock_us_hist (symbol period start_date end_date adjust : String)
    (prov : ProvFun) : String × List CallArgs :=
  if !(validPeriod period) then
    (jsonDumps2 periodMsg "INVALID_PERIOD", [])
  else if !(strptimeYmdOk start_date && strptimeYmdOk end_date) then
    (jsonDumps2 dateMsg "INVALID_DATE_FORMAT", [])
  else
    match prov symbol period start_date end_date adjust with
    | Except.error e =>
      (jsonDumps2 ("获取美股历史数据失败: " ++ e) "API_ERROR",
        [(symbol, period, start_date, end_date, adjust)])
    | Except.ok df =>
      if df.emptyB then
        (jsonDumps2 noDataMsg "NO_DATA_FOUND",
          [(symbol, period, start_date, end_date, adjust)])
      else
        match normalizeDates df with
        | Except.error e =>
          (jsonDumps2 ("获取美股历史数据失败: " ++ e) "API_ERROR",
            [(symbol, period, start_date, end_date, adjust)])
        | Except.ok df2 =>
          (usReport symbol period start_date end_date adjust df2,
            [(symbol, period, start_date, end_date, adjust)])

/-- The handler for HK stock history: `stock_hk_hist` in
`src/akshare_mcp_server.py` lines 121-199, and the byte-identical logic of
`src/tools/stock_hk_hist.py` lines 11-63. -/
def stock_hk_hist (symbol period start_date end_date adjust : String)
    (prov : ProvFun) : String × List CallArgs :=
  if !(validPeriod period) then
    (jsonDumps2 periodMsg "INVALID_PERIOD", [])
  else if !(strptimeYmdOk start_date && strptimeYmdOk end_date) then
    (jsonDumps2 dateMsg "INVALID_DATE_FORMAT", [])
  else
    match prov symbol period start_date end_date adjust with
    | Except.error e =>
      (jsonDumps2 ("获取港股历史数据失败: " ++ e) "API_ERROR",
        [(symbol, period, start_date, end_date, adjust)])
    | Except.ok df =>
      if df.emptyB then
        (jsonDumps2 noDataMsg "NO_DATA_FOUND",
          [(symbol, period, start_date, end_date, adjust)])
      else
        match normalizeDates df with
        | Except.error e =>
          (jsonDumps2 ("获取港股历史数据失败: " ++ e) "API_ERROR",
            [(symbol, period, start_date, end_date, adjust)])
        | Except.ok df2 =>
          (hkReport symbol period start_date end_date adjust df2,
            [(symbol, period, start_date, end_date, adjust)])

/-- The handler for A-share stock history: `stock_zh_a_hist` in
`src/akshare_mcp_server.py` lines 201-282 (its provider call also passes
`timeout=None`, which does not change the five request fields). -/
def stock_zh_a_hist (symbol period start_date end_date adjust : String)
    (prov : ProvFun) : String × List CallArgs :=
  if !(validPeriod period) then
    (jsonDumps2 periodMsg "INVALID_PERIOD", [])
  else if !(strptimeYmdOk start_date && strptimeYmdOk end_date) then
    (jsonDumps2 dateMsg "INVALID_DATE_FORMAT", [])
  else
    match prov symbol period start_date end_date adjust with
    | Except.error e =>
      (jsonDumps2 ("获取A股历史数据失败: " ++ e) "API_ERROR",
        [(symbol, period, start_date, end_date, adjust)])
    | Except.ok df =>
      if df.emptyB then
        (jsonDumps2 noDataMsg "NO_DATA_FOUND",
          [(symbol, period, start_date, end_date, adjust)])
      else
        match normalizeDates df with
        | Except.error e =>
          (jsonDumps2 ("获取A股历史数据失败: " ++ e) "API_ERROR",
            [(symbol, period, start_date, end_date, adjust)])
        | Except.ok df2 =>
          (zhReport symbol period start_date end_date adjust df2,
            [(symbol, period, start_date, end_date, adjust)])

/-- A per-market parameter set, following the spec's MarketConfig: the
report header up to the symbol, the market's currency label, the full
currency metadata block the report prints (which begins with the currency
label), the API_ERROR message text that precedes the exception message, the
report footer, and the market's default dates from the handler
signature. -/
structure MarketConfig where
  head : String
  currency : String
  curBlock : String
  failPre : String
  footer : String
  defStart : String
  defEnd : String

/-- The shared report template instantiated by a market configuration. -/
def genReport (cfg : MarketConfig) (symbol period start_date end_date adjust : String)
    (df : DataFrame) : String :=
  cfg.head ++ symbol ++
  "  \n**数据周期**: " ++ period ++
  "  \n**日期范围**: " ++ start_date ++ " ~ " ++ end_date ++
  "  \n**复权方式**: " ++ adjustLabel adjust ++
  "  \n**数据条数**: " ++ toString df.rows.length ++
  " 条  \n**货币单位**: " ++ cfg.curBlock ++ "\n\n" ++
  mdTable df.columns df.rows ++ "\n\n" ++ cfg.footer

/-- The shared validate-fetch-format logic of the three handlers, written
once over a market configuration (the spec's `handle(market, request)`). -/
def handleHist (cfg : MarketConfig) (symbol period start_date end_date adjust : String)
    (prov : ProvFun) : String × List CallArgs :=
  if !(validPeriod period) then
    (jsonDumps2 periodMsg "INVALID_PERIOD", [])
  else if !(strptimeYmdOk start_date && strptimeYmdOk end_date) then
    (jsonDumps2 dateMsg "INVALID_DATE_FORMAT", [])
  else
    match prov symbol period start_date end_date adjust with
    | Except.error e =>
      (jsonDumps2 (cfg.failPre ++ e) "API_ERROR",
        [(symbol, period, start_date, end_date, adjust)])
    | Except.ok df =>
      if df.emptyB then
        (jsonDumps2 noDataMsg "NO_DATA_FOUND",
          [(symbol, period, start_date, end_date, adjust)])
      else
        match normalizeDates df with
        | Except.error e =>
          (jsonDumps2 (cfg.failPre ++ e) "API_ERROR",
            [(symbol, period, start_date, end_date, adjust)])
        | Except.ok df2 =>
          (genReport cfg symbol period start_date end_date adjust df2,
            [(symbol, period, start_date, end_date, adjust)])

/-- US market configuration: currency 美元 (USD), defaults from the
`stock_us_hist` signature. -/
def usCfg : MarketConfig :=
  MarketConfig.mk "# 美股历史行情数据\n\n**股票代码**: " "美元 (USD)" "美元 (USD)"
    "获取美股历史数据失败: " "*数据来源：东方财富网*\n" "20210101" "20240214"

/-- HK market configuration: currency 港元 (HKD), defaults from the
`stock_hk_hist` signature. -/
def hkCfg : MarketConfig :=
  MarketConfig.mk "# 港股历史行情数据\n\n**股票代码**: " "港元 (HKD)" "港元 (HKD)"
    "获取港股历史数据失败: " "*数据来源：东方财富网*\n" "19700101" "22220101"

/-- A-share market configuration: currency 人民币 (CNY) (its currency block
carries the extra 成交量 line), defaults from the `stock_zh_a_hist`
signature. -/
def zhCfg : MarketConfig :=
  MarketConfig.mk "# A股历史行情数据\n\n**股票代码**: " "人民币 (CNY)"
    "人民币 (CNY)  \n**成交量单位**: 手 (1手=100股)"
    "获取A股历史数据失败: "
    "*数据来源：东方财富网*  \n*注：成交量单位为手，成交额单位为元*\n"
    "20210301" "20240528"

/-- The `stock_us_hist` handler with the shared logging sink made explicit:
the source's `logger.info`/`logger.error` calls append to a process-wide
sink, modelled as a `List String` threaded through the call.  The entry
line, the error line and the success line mirror the source's f-strings. -/
def stock_us_hist_logged (symbol period start_date end_date adjust : String)
    (prov : ProvFun) (sink : List String) : String × List String :=
  let sink1 := sink ++ ["获取美股历史数据: symbol=" ++ symbol ++ ", period=" ++ period ++
    ", start_date=" ++ start_date ++ ", end_date=" ++ end_date ++ ", adjust=" ++ adjust]
  if !(validPeriod period) then
    (jsonDumps2 periodMsg "INVALID_PERIOD", sink1)
  else if !(strptimeYmdOk start_date && strptimeYmdOk end_date) then
    (jsonDumps2 dateMsg "INVALID_DATE_FORMAT", sink1)
  else
    match prov symbol period start_date end_date adjust with
    | Except.error e =>
      (jsonDumps2 ("获取美股历史数据失败: " ++ e) "API_ERROR",
        sink1 ++ ["获取美股历史数据失败: " ++ e])
    | Except.ok df =>
      if df.emptyB then
        (jsonDumps2 noDataMsg "NO_DATA_FOUND", sink1)
      else
        match normalizeDates df with
        | Except.error e =>
          (jsonDumps2 ("获取美股历史数据失败: " ++ e) "API_ERROR",
            sink1 ++ ["获取美股历史数据失败: " ++ e])
        | Except.ok df2 =>
          (usReport symbol period start_date end_date adjust df2,
            sink1 ++ ["成功获取数据，共 " ++ toString df2.rows.length ++ " 条记录"])

/-- Default start date in the `stock_us_hist` signature. -/
def stock_us_default_start : String := "20210101"

/-- Default end date in the `stock_us_hist` signature. -/
def stock_us_default_end : String := "20240214"

/-- Default start date in the `stock_hk_hist` signature. -/
def stock_hk_default_start : String := "19700101"

/-- Default end date in the `stock_hk_hist` signature. -/
def stock_hk_default_end : String := "22220101"

/-- Default start date in the `stock_zh_a_hist` signature. -/
def stock_zh_default_start : String := "20210301"

/-- Default end date in the `stock_zh_a_hist` signature. -/
def stock_zh_default_end : String := "20240528"

/-- Substring containment: `sub` occurs contiguously inside `s`. -/
def containsSubstr (s sub : String) : Prop := ∃ a b, s = a ++ sub ++ b

/-- First character of a string, used to separate report strings (which
start with a Markdown heading) from JSON error strings (which start with an
opening brace). -/
def firstChar (s : String) : Option Char := s.data.head?

/-- The US handler is the shared logic instantiated at the US market
configuration. -/
theorem us_as_handleHist (symbol period start_date end_date adjust : String) (prov : ProvFun) :
    stock_us_hist symbol period start_date end_date adjust prov =
      handleHist usCfg symbol period start_date end_date adjust prov := rfl

/-- The HK handler is the shared logic instantiated at the HK market
configuration. -/
theorem hk_as_handleHist (symbol period start_date end_date adjust : String) (prov : ProvFun) :
    stock_hk_hist symbol period start_date end_date adjust prov =
      handleHist hkCfg symbol period start_date end_date adjust prov := rfl

/-- The A-share handler is the shared logic instantiated at the A-share
market configuration. -/
theorem zh_as_handleHist (symbol period start_date end_date adjust : String) (prov : ProvFun) :
    stock_zh_a_hist symbol period start_date end_date adjust prov =
      handleHist zhCfg symbol period start_date end_date adjust prov := rfl

theorem handleHist_period (cfg : MarketConfig) (symbol period start_date end_date adjust : String)
    (prov : ProvFun) (h : validPeriod period = false) :
    handleHist cfg symbol period start_date end_date adjust prov =
      (jsonDumps2 periodMsg "INVALID_PERIOD", []) := by
  simp [handleHist, h]

theorem handleHist_date (cfg : MarketConfig) (symbol period start_date end_date adjust : String)
    (prov : ProvFun) (h1 : validPeriod period = true)
    (h2 : (strptimeYmdOk start_date && strptimeYmdOk end_date) = false) :
    handleHist cfg symbol period start_date end_date adjust prov =
      (jsonDumps2 dateMsg "INVALID_DATE_FORMAT", []) := by
  simp [handleHist, h1, h2]

theorem handleHist_apiError (cfg : MarketConfig) (symbol period start_date end_date adjust : String)
    (prov : ProvFun) (e : String) (h1 : validPeriod period = true)
    (h2 : strptimeYmdOk start_date = true) (h3 : strptimeYmdOk end_date = true)
    (h4 : prov symbol period start_date end_date adjust = Except.error e) :
    handleHist cfg symbol period start_date end_date adjust prov =
      (jsonDumps2 (cfg.failPre ++ e) "API_ERROR",
        [(symbol, period, start_date, end_date, adjust)]) := by
  simp [handleHist, h1, h2, h3, h4]

theorem handleHist_noData (cfg : MarketConfig) (symbol period start_date end_date adjust : String)
    (prov : ProvFun) (df : DataFrame) (h1 : validPeriod period = true)
    (h2 : strptimeYmdOk start_date = true) (h3 : strptimeYmdOk end_date = true)
    (h4 : prov symbol period start_date end_date adjust = Except.ok df)
    (h5 : df.emptyB = true) :
    handleHist cfg symbol period start_date end_date adjust prov =
      (jsonDumps2 noDataMsg "NO_DATA_FOUND",
        [(symbol, period, start_date, end_date, adjust)]) := by
  simp [handleHist, h1, h2, h3, h4, h5]

theorem handleHist_fmtError (cfg : MarketConfig) (symbol period start_date end_date adjust : String)
    (prov : ProvFun) (df : DataFrame) (e : String) (h1 : validPeriod period = true)
    (h2 : strptimeYmdOk start_date = true) (h3 : strptimeYmdOk end_date = true)
    (h4 : prov symbol period start_date end_date adjust = Except.ok df)
    (h5 : df.emptyB = false) (h6 : normalizeDates df = Except.error e) :
    handleHist cfg symbol period start_date end_date adjust prov =
      (jsonDumps2 (cfg.failPre ++ e) "API_ERROR",
        [(symbol, period, start_date, end_date, adjust)]) := by
  simp [handleHist, h1, h2, h3, h4, h5, h6]

theorem handleHist_success (cfg : MarketConfig) (symbol period start_date end_date adjust : String)
    (prov : ProvFun) (df df2 : DataFrame) (h1 : validPeriod period = true)
    (h2 : strptimeYmdOk start_date = true) (h3 : strptimeYmdOk end_date = true)
    (h4 : prov symbol period start_date end_date adjust = Except.ok df)
    (h5 : df.emptyB = false) (h6 : normalizeDates df = Except.ok df2) :
    handleHist cfg symbol period start_date end_date adjust prov =
      (genReport cfg symbol period start_date end_date adjust df2,
        [(symbol, period, start_date, end_date, adjust)]) := by
  simp [handleHist, h1, h2, h3, h4, h5, h6]

theorem contains_self (t : String) : containsSubstr t t :=
  ⟨"", "", by simp⟩

theorem contains_appendL (x y t : String) (h : containsSubstr x t) : containsSubstr (x ++ y) t := by
  obtain ⟨a, b, rfl⟩ := h
  exact ⟨a, b ++ y, by simp [String.append_assoc]⟩

theorem contains_appendR (x y t : String) (h : containsSubstr y t) : containsSubstr (x ++ y) t := by
  obtain ⟨a, b, rfl⟩ := h
  exact ⟨x ++ a, b, by simp [String.append_assoc]⟩

theorem contains_trans (s t u : String) (h1 : containsSubstr s t) (h2 : containsSubstr t u) :
    containsSubstr s u := by
  obtain ⟨a, b, rfl⟩ := h1
  obtain ⟨x, y, rfl⟩ := h2
  exact ⟨a ++ x, y ++ b, by simp [String.append_assoc]⟩

theorem genReport_contains_symbol (cfg : MarketConfig)
    (symbol period start_date end_date adjust : String) (df : DataFrame) :
    containsSubstr (genReport cfg symbol period start_date end_date adjust df) symbol := by
  unfold genReport
  iterate 16 apply contains_appendL
  exact contains_appendR _ _ _ (contains_self _)

theorem genReport_contains_label (cfg : MarketConfig)
    (symbol period start_date end_date adjust : String) (df : DataFrame) :
    containsSubstr (genReport cfg symbol period start_date end_date adjust df)
      (adjustLabel adjust) := by
  unfold genReport
  iterate 8 apply contains_appendL
  exact contains_appendR _ _ _ (contains_self _)

theorem genReport_contains_count (cfg : MarketConfig)
    (symbol period start_date end_date adjust : String) (df : DataFrame) :
    containsSubstr (genReport cfg symbol period start_date end_date adjust df)
      (toString df.rows.length) := by
  unfold genReport
  iterate 6 apply contains_appendL
  exact contains_appendR _ _ _ (contains_self _)

theorem genReport_contains_curBlock (cfg : MarketConfig)
    (symbol period start_date end_date adjust : String) (df : DataFrame) :
    containsSubstr (genReport cfg symbol period start_date end_date adjust df)
      cfg.curBlock := by
  unfold genReport
  iterate 4 apply contains_appendL
  exact contains_appendR _ _ _ (contains_self _)

theorem ne_of_firstChar (s t : String) (h : firstChar s ≠ firstChar t) : s ≠ t :=
  fun e => h (congrArg firstChar e)

theorem codeTail_suffix (m c : String) :
    (codeTail c).data <:+ (jsonDumps2 m c).data := by
  refine ⟨("\x7b\"error\": \"" : String).data ++ (jsonEscape m).data, ?_⟩
  simp [jsonDumps2, List.append_assoc]

theorem jsonDumps2_ne_of_codes (m mx c cx : String)
    (h1 : ¬ ((codeTail c).data <:+ (codeTail cx).data))
    (h2 : ¬ ((codeTail cx).data <:+ (codeTail c).data)) :
    jsonDumps2 m c ≠ jsonDumps2 mx cx := by
  intro he
  have hs1 : (codeTail c).data <:+ (jsonDumps2 mx cx).data := he ▸ codeTail_suffix m c
  have hs2 : (codeTail cx).data <:+ (jsonDumps2 mx cx).data := codeTail_suffix mx cx
  rcases List.suffix_or_suffix_of_suffix hs1 hs2 with hs | hs
  · exact h1 hs
  · exact h2 hs

theorem mapM_normCell_length (i : Nat) (rows rs : List (List String))
    (h : rows.mapM (normCell i) = Except.ok rs) : rs.length = rows.length := by
  induction rows generalizing rs with
  | nil =>
    injection h with h2
    simp [← h2]
  | cons r rest ih =>
    rw [List.mapM_cons] at h
    cases hr : normCell i r with
    | error e => rw [hr] at h; simp [Bind.bind, Except.bind] at h
    | ok r2 =>
      rw [hr] at h
      cases hm : rest.mapM (normCell i) with
      | error e => rw [hm] at h; simp [Bind.bind, Except.bind] at h
      | ok rs2 =>
        rw [hm] at h
        simp [Bind.bind, Except.bind, pure, Except.pure] at h
        subst h
        simp [ih rs2 hm]

/-- The four error codes of the handlers' taxonomy. -/
def errorCodes : List String :=
  ["INVALID_PERIOD", "INVALID_DATE_FORMAT", "NO_DATA_FOUND", "API_ERROR"]

/-- A response string that is a JSON-encoded ErrorResult: `json.dumps` of
an object with keys exactly `error` and `code`, the code being one of the
four taxonomy codes. -/
def IsErrorResult (s : String) : Prop :=
  ∃ m c, c ∈ errorCodes ∧ s = jsonDumps2 m c

/-- A stub provider returning two well-formed records. -/
def provSample : ProvFun := fun _ _ _ _ _ =>
  Except.ok (DataFrame.mk ["日期", "收盘"] [["20210104", "130.00"], ["20210105", "131.00"]])

/-- A stub provider returning zero records. -/
def provEmpty : ProvFun := fun _ _ _ _ _ =>
  Except.ok (DataFrame.mk ["日期", "收盘"] [])

/-- A stub provider that raises on invocation. -/
def provRaise : ProvFun := fun _ _ _ _ _ => Except.error "Connection aborted"

theorem firstChar_jsonDumps2 (m c : String) :
    firstChar (jsonDumps2 m c) = some (Char.ofNat 123) := rfl

theorem firstChar_genReport_us (symbol period start_date end_date adjust : String)
    (df : DataFrame) :
    firstChar (genReport usCfg symbol period start_date end_date adjust df) = some '#' := rfl

theorem firstChar_usReport (symbol period start_date end_date adjust : String)
    (df : DataFrame) :
    firstChar (usReport symbol period start_date end_date adjust df) = some '#' := rfl

theorem firstChar_hkReport (symbol period start_date end_date adjust : String)
    (df : DataFrame) :
    firstChar (hkReport symbol period start_date end_date adjust df) = some '#' := rfl

theorem firstChar_zhReport (symbol period start_date end_date adjust : String)
    (df : DataFrame) :
    firstChar (zhReport symbol period start_date end_date adjust df) = some '#' := rfl

theorem firstChar_genReport_hk (symbol period start_date end_date adjust : String)
    (df : DataFrame) :
    firstChar (genReport hkCfg symbol period start_date end_date adjust df) = some '#' := rfl

theorem firstChar_genReport_zh (symbol period start_date end_date adjust : String)
    (df : DataFrame) :
    firstChar (genReport zhCfg symbol period start_date end_date adjust df) = some '#' := rfl

theorem normalizeDates_length (df df2 : DataFrame) (h : normalizeDates df = Except.ok df2) :
    df2.rows.length = df.rows.length := by
  unfold normalizeDates at h
  cases hidx : df.columns.findIdx? (· == "日期") with
  | none => rw [hidx] at h; cases h; rfl
  | some i =>
    rw [hidx] at h
    dsimp only at h
    cases hm : df.rows.mapM (normCell i) with
    | error e => rw [hm] at h; simp [Except.map] at h
    | ok rs =>
      rw [hm] at h
      simp [Except.map] at h
      rw [← h]
      exact mapM_normCell_length i df.rows rs hm

theorem handleHist_shape (cfg : MarketConfig) (symbol period start_date end_date adjust : String)
    (prov : ProvFun) :
    (∃ df2, (handleHist cfg symbol period start_date end_date adjust prov).1 =
        genReport cfg symbol period start_date end_date adjust df2) ∨
      IsErrorResult (handleHist cfg symbol period start_date end_date adjust prov).1 := by
  cases h1 : validPeriod period with
  | false =>
    right
    exact ⟨periodMsg, "INVALID_PERIOD", by simp [errorCodes],
      by rw [handleHist_period cfg symbol period start_date end_date adjust prov h1]⟩
  | true =>
    cases h2 : strptimeYmdOk start_date && strptimeYmdOk end_date with
    | false =>
      right
      exact ⟨dateMsg, "INVALID_DATE_FORMAT", by simp [errorCodes],
        by rw [handleHist_date cfg symbol period start_date end_date adjust prov h1 h2]⟩
    | true =>
      have h2ab : strptimeYmdOk start_date = true ∧ strptimeYmdOk end_date = true := by
        have h2x := h2
        simp only [Bool.and_eq_true] at h2x
        exact h2x
      have h2a : strptimeYmdOk start_date = true := h2ab.1
      have h2b : strptimeYmdOk end_date = true := h2ab.2
      cases hpr : prov symbol period start_date end_date adjust with
      | error e =>
        right
        exact ⟨cfg.failPre ++ e, "API_ERROR", by simp [errorCodes],
          by rw [handleHist_apiError cfg symbol period start_date end_date adjust prov e
            h1 h2a h2b hpr]⟩
      | ok df =>
        cases h5 : df.emptyB with
        | true =>
          right
          exact ⟨noDataMsg, "NO_DATA_FOUND", by simp [errorCodes],
            by rw [handleHist_noData cfg symbol period start_date end_date adjust prov df
              h1 h2a h2b hpr h5]⟩
        | false =>
          cases h6 : normalizeDates df with
          | error e =>
            right
            exact ⟨cfg.failPre ++ e, "API_ERROR", by simp [errorCodes],
              by rw [handleHist_fmtError cfg symbol period start_date end_date adjust prov df e
                h1 h2a h2b hpr h5 h6]⟩
          | ok df2 =>
            left
            exact ⟨df2, by rw [handleHist_success cfg symbol period start_date end_date adjust
              prov df df2 h1 h2a h2b hpr h5 h6]⟩

/-- Claim C1: for every request (any symbol, period, start_date, end_date,
adjust strings) and every provider behaviour (any returned record sequence
or any raised exception), each of the three handler operations returns a
string — they are total functions, so no exception escapes — and every
failure path returns the JSON encoding of an object whose keys are exactly
`error` and `code`: each result is either the market's success report or
an `IsErrorResult` string. -/
theorem claim_C1_total_and_structured (symbol period start_date end_date adjust : String)
    (prov : ProvFun) :
    ((∃ df2, (stock_us_hist symbol period start_date end_date adjust prov).1 =
        usReport symbol period start_date end_date adjust df2) ∨
      IsErrorResult (stock_us_hist symbol period start_date end_date adjust prov).1) ∧
    ((∃ df2, (stock_hk_hist symbol period start_date end_date adjust prov).1 =
        hkReport symbol period start_date end_date adjust df2) ∨
      IsErrorResult (stock_hk_hist symbol period start_date end_date adjust prov).1) ∧
    ((∃ df2, (stock_zh_a_hist symbol period start_date end_date adjust prov).1 =
        zhReport symbol period start_date end_date adjust df2) ∨
      IsErrorResult (stock_zh_a_hist symbol period start_date end_date adjust prov).1) := by
  refine ⟨?_, ?_, ?_⟩
  · rw [us_as_handleHist symbol period start_date end_date adjust prov]
    exact handleHist_shape usCfg symbol period start_date end_date adjust prov
  · rw [hk_as_handleHist symbol period start_date end_date adjust prov]
    exact handleHist_shape hkCfg symbol period start_date end_date adjust prov
  · rw [zh_as_handleHist symbol period start_date end_date adjust prov]
    exact handleHist_shape zhCfg symbol period start_date end_date adjust prov

/-- Claim C2: whenever the period is not one of daily/weekly/monthly, all
three handlers return the INVALID_PERIOD ErrorResult and the provider is
never invoked (empty call list) — whatever the date fields contain, since
the period check comes first. -/
theorem claim_C2_invalid_period (symbol period start_date end_date adjust : String)
    (prov : ProvFun) (h : validPeriod period = false) :
    stock_us_hist symbol period start_date end_date adjust prov =
      (jsonDumps2 periodMsg "INVALID_PERIOD", []) ∧
    stock_hk_hist symbol period start_date end_date adjust prov =
      (jsonDumps2 periodMsg "INVALID_PERIOD", []) ∧
    stock_zh_a_hist symbol period start_date end_date adjust prov =
      (jsonDumps2 periodMsg "INVALID_PERIOD", []) := by
  refine ⟨?_, ?_, ?_⟩
  · exact (us_as_handleHist symbol period start_date end_date adjust prov).trans
      (handleHist_period usCfg symbol period start_date end_date adjust prov h)
  · exact (hk_as_handleHist symbol period start_date end_date adjust prov).trans
      (handleHist_period hkCfg symbol period start_date end_date adjust prov h)
  · exact (zh_as_handleHist symbol period start_date end_date adjust prov).trans
      (handleHist_period zhCfg symbol period start_date end_date adjust prov h)

/-- Spec-side definition following the claim's words "8-digit
year-month-day parsing": the string must be exactly eight digits
`YYYYMMDD` forming a valid calendar date.  It exists only to compare the
claim's wording with the code's actual `strptime` behaviour
(`strptimeYmdOk`), which also accepts some 6- and 7-character strings. -/
def eightDigitYmdOk (s : String) : Bool :=
  match s.toList with
  | [y1, y2, y3, y4, m1, m2, d1, d2] =>
    isDigitB y1 && isDigitB y2 && isDigitB y3 && isDigitB y4 &&
    isDigitB m1 && isDigitB m2 && isDigitB d1 && isDigitB d2 &&
    validDate (1000 * digitVal y1 + 100 * digitVal y2 + 10 * digitVal y3 + digitVal y4)
      (10 * digitVal m1 + digitVal m2) (10 * digitVal d1 + digitVal d2)
  | _ => false

/-- Claim C3 counterexample: the start date "202111" fails 8-digit
year-month-day parsing, the period is valid, yet the US handler does not
return the INVALID_DATE_FORMAT ErrorResult and it does invoke the
provider — because CPython's `strptime("%Y%m%d")` accepts the 6-character
string as year 2021, month 1, day 1. -/
theorem claim_C3_counterexample :
    eightDigitYmdOk "202111" = false ∧
    strptimeYmdOk "202111" = true ∧
    (stock_us_hist "AAPL" "daily" "202111" "20210105" "" provSample).2 =
      [("AAPL", "daily", "202111", "20210105", "")] ∧
    (stock_us_hist "AAPL" "daily" "202111" "20210105" "" provSample).1 ≠
      jsonDumps2 dateMsg "INVALID_DATE_FORMAT" := by
  refine ⟨by decide, by decide, by decide, by decide⟩

/-- Claim C3 (amended): for every request with a valid period where
start_date or end_date fails parsing under Python's
`strptime("%Y%m%d")` semantics (a 4-digit year then a 1-2 digit month then
a 1-2 digit day forming a valid calendar date — so, unlike a strict
8-digit check, some 6- and 7-character strings are accepted), all three
handlers return the INVALID_DATE_FORMAT ErrorResult and the provider is
never invoked. -/
theorem claim_C3_invalid_date (symbol period start_date end_date adjust : String)
    (prov : ProvFun) (h1 : validPeriod period = true)
    (h2 : strptimeYmdOk start_date = false ∨ strptimeYmdOk end_date = false) :
    stock_us_hist symbol period start_date end_date adjust prov =
      (jsonDumps2 dateMsg "INVALID_DATE_FORMAT", []) ∧
    stock_hk_hist symbol period start_date end_date adjust prov =
      (jsonDumps2 dateMsg "INVALID_DATE_FORMAT", []) ∧
    stock_zh_a_hist symbol period start_date end_date adjust prov =
      (jsonDumps2 dateMsg "INVALID_DATE_FORMAT", []) := by
  have hb : (strptimeYmdOk start_date && strptimeYmdOk end_date) = false := by
    rcases h2 with h | h <;> simp [h]
  refine ⟨?_, ?_, ?_⟩
  · exact (us_as_handleHist symbol period start_date end_date adjust prov).trans
      (handleHist_date usCfg symbol period start_date end_date adjust prov h1 hb)
  · exact (hk_as_handleHist symbol period start_date end_date adjust prov).trans
      (handleHist_date hkCfg symbol period start_date end_date adjust prov h1 hb)
  · exact (zh_as_handleHist symbol period start_date end_date adjust prov).trans
      (handleHist_date zhCfg symbol period start_date end_date adjust prov h1 hb)

/-- Claim C4: for every syntactically valid request, if the provider
raises, each handler returns the API_ERROR ErrorResult whose message is
the market's failure prefix followed by the exception's message (so it
contains the exception text), the exception is not propagated (the call
returns normally, with the one provider call recorded), and the result is
never a report. -/
theorem claim_C4_api_error (symbol period start_date end_date adjust e : String)
    (prov : ProvFun) (h1 : validPeriod period = true)
    (h2 : strptimeYmdOk start_date = true) (h3 : strptimeYmdOk end_date = true)
    (h4 : prov symbol period start_date end_date adjust = Except.error e) :
    (stock_us_hist symbol period start_date end_date adjust prov =
        (jsonDumps2 ("获取美股历史数据失败: " ++ e) "API_ERROR",
          [(symbol, period, start_date, end_date, adjust)]) ∧
      containsSubstr ("获取美股历史数据失败: " ++ e) e ∧
      ∀ df2, (stock_us_hist symbol period start_date end_date adjust prov).1 ≠
        usReport symbol period start_date end_date adjust df2) ∧
    (stock_hk_hist symbol period start_date end_date adjust prov =
        (jsonDumps2 ("获取港股历史数据失败: " ++ e) "API_ERROR",
          [(symbol, period, start_date, end_date, adjust)]) ∧
      containsSubstr ("获取港股历史数据失败: " ++ e) e ∧
      ∀ df2, (stock_hk_hist symbol period start_date end_date adjust prov).1 ≠
        hkReport symbol period start_date end_date adjust df2) ∧
    (stock_zh_a_hist symbol period start_date end_date adjust prov =
        (jsonDumps2 ("获取A股历史数据失败: " ++ e) "API_ERROR",
          [(symbol, period, start_date, end_date, adjust)]) ∧
      containsSubstr ("获取A股历史数据失败: " ++ e) e ∧
      ∀ df2, (stock_zh_a_hist symbol period start_date end_date adjust prov).1 ≠
        zhReport symbol period start_date end_date adjust df2) := by
  have hus := (us_as_handleHist symbol period start_date end_date adjust prov).trans
    (handleHist_apiError usCfg symbol period start_date end_date adjust prov e h1 h2 h3 h4)
  have hhk := (hk_as_handleHist symbol period start_date end_date adjust prov).trans
    (handleHist_apiError hkCfg symbol period start_date end_date adjust prov e h1 h2 h3 h4)
  have hzh := (zh_as_handleHist symbol period start_date end_date adjust prov).trans
    (handleHist_apiError zhCfg symbol period start_date end_date adjust prov e h1 h2 h3 h4)
  refine ⟨⟨hus, ⟨"获取美股历史数据失败: ", "", by simp⟩, ?_⟩,
    ⟨hhk, ⟨"获取港股历史数据失败: ", "", by simp⟩, ?_⟩,
    ⟨hzh, ⟨"获取A股历史数据失败: ", "", by simp⟩, ?_⟩⟩
  · intro df2
    rw [hus]
    exact ne_of_firstChar _ _ (by
      rw [firstChar_jsonDumps2, firstChar_usReport symbol period start_date end_date adjust df2]
      decide)
  · intro df2
    rw [hhk]
    exact ne_of_firstChar _ _ (by
      rw [firstChar_jsonDumps2, firstChar_hkReport symbol period start_date end_date adjust df2]
      decide)
  · intro df2
    rw [hzh]
    exact ne_of_firstChar _ _ (by
      rw [firstChar_jsonDumps2, firstChar_zhReport symbol period start_date end_date adjust df2]
      decide)

/-- Claim C5: for every syntactically valid request, if the provider
returns zero records (without raising), each handler returns the
NO_DATA_FOUND ErrorResult — which is not an API_ERROR ErrorResult and not
a report. -/
theorem claim_C5_no_data (symbol period start_date end_date adjust : String)
    (prov : ProvFun) (cols : List String) (h1 : validPeriod period = true)
    (h2 : strptimeYmdOk start_date = true) (h3 : strptimeYmdOk end_date = true)
    (h4 : prov symbol period start_date end_date adjust = Except.ok (DataFrame.mk cols [])) :
    stock_us_hist symbol period start_date end_date adjust prov =
      (jsonDumps2 noDataMsg "NO_DATA_FOUND",
        [(symbol, period, start_date, end_date, adjust)]) ∧
    stock_hk_hist symbol period start_date end_date adjust prov =
      (jsonDumps2 noDataMsg "NO_DATA_FOUND",
        [(symbol, period, start_date, end_date, adjust)]) ∧
    stock_zh_a_hist symbol period start_date end_date adjust prov =
      (jsonDumps2 noDataMsg "NO_DATA_FOUND",
        [(symbol, period, start_date, end_date, adjust)]) ∧
    (∀ m, jsonDumps2 noDataMsg "NO_DATA_FOUND" ≠ jsonDumps2 m "API_ERROR") ∧
    (∀ df2, jsonDumps2 noDataMsg "NO_DATA_FOUND" ≠
      usReport symbol period start_date end_date adjust df2) := by
  have h5 : (DataFrame.mk cols []).emptyB = true := by simp [DataFrame.emptyB]
  refine ⟨?_, ?_, ?_, ?_, ?_⟩
  · exact (us_as_handleHist symbol period start_date end_date adjust prov).trans
      (handleHist_noData usCfg symbol period start_date end_date adjust prov _ h1 h2 h3 h4 h5)
  · exact (hk_as_handleHist symbol period start_date end_date adjust prov).trans
      (handleHist_noData hkCfg symbol period start_date end_date adjust prov _ h1 h2 h3 h4 h5)
  · exact (zh_as_handleHist symbol period start_date end_date adjust prov).trans
      (handleHist_noData zhCfg symbol period start_date end_date adjust prov _ h1 h2 h3 h4 h5)
  · intro m
    exact jsonDumps2_ne_of_codes noDataMsg m "NO_DATA_FOUND" "API_ERROR"
      (by decide) (by decide)
  · intro df2
    exact ne_of_firstChar _ _ (by
      rw [firstChar_jsonDumps2, firstChar_usReport symbol period start_date end_date adjust df2]
      decide)

/-- Claim C6: against a stubbed provider returning N well-formed records
(non-empty, with parsable date cells, so normalization yields `df2`) for
symbol "AAPL", period "daily", start "20210101", end "20210105",
adjust "", the US handler returns the report string, which contains the
literal symbol "AAPL", the literal record count N, the label 不复权
(unadjusted), and whose tabular rendering consists of one header line, a
separator line, and exactly N data lines. -/
theorem claim_C6_us_success_report (prov : ProvFun) (cols : List String)
    (rows : List (List String)) (N : Nat) (df2 : DataFrame)
    (hprov : prov "AAPL" "daily" "20210101" "20210105" "" =
      Except.ok (DataFrame.mk cols rows))
    (hrows : rows ≠ []) (hcols : cols ≠ [])
    (hnorm : normalizeDates (DataFrame.mk cols rows) = Except.ok df2)
    (hN : rows.length = N) :
    (stock_us_hist "AAPL" "daily" "20210101" "20210105" "" prov).1 =
      usReport "AAPL" "daily" "20210101" "20210105" "" df2 ∧
    df2.rows.length = N ∧
    containsSubstr (stock_us_hist "AAPL" "daily" "20210101" "20210105" "" prov).1 "AAPL" ∧
    containsSubstr (stock_us_hist "AAPL" "daily" "20210101" "20210105" "" prov).1
      (toString N) ∧
    containsSubstr (stock_us_hist "AAPL" "daily" "20210101" "20210105" "" prov).1 "不复权" ∧
    mdTableLines df2.columns df2.rows =
      mdRow df2.columns :: mdRow (df2.columns.map sepCell) :: df2.rows.map mdRow ∧
    (df2.rows.map mdRow).length = N := by
  have hempty : (DataFrame.mk cols rows).emptyB = false := by
    rcases rows with _ | ⟨r0, rtl⟩
    · exact absurd rfl hrows
    · rcases cols with _ | ⟨c0, ctl⟩
      · exact absurd rfl hcols
      · rfl
  have heq := (us_as_handleHist "AAPL" "daily" "20210101" "20210105" "" prov).trans
    (handleHist_success usCfg "AAPL" "daily" "20210101" "20210105" "" prov _ df2
      (by decide) (by decide) (by decide) hprov hempty hnorm)
  have hlen : df2.rows.length = N := (normalizeDates_length _ _ hnorm).trans hN
  have hfst : (stock_us_hist "AAPL" "daily" "20210101" "20210105" "" prov).1 =
      genReport usCfg "AAPL" "daily" "20210101" "20210105" "" df2 := by rw [heq]
  refine ⟨hfst, hlen, ?_, ?_, ?_, rfl, by simp [hlen]⟩
  · rw [hfst]
    exact genReport_contains_symbol usCfg "AAPL" "daily" "20210101" "20210105" "" df2
  · rw [hfst, ← hlen]
    exact genReport_contains_count usCfg "AAPL" "daily" "20210101" "20210105" "" df2
  · rw [hfst]
    exact genReport_contains_label usCfg "AAPL" "daily" "20210101" "20210105" "" df2

/-- Claim C7: the three market operations are the shared handler logic
instantiated at three market configurations carrying each market's own
currency label (美元/港元/人民币) and the default dates of each handler
signature; every successful report contains its market's currency label,
and the validation and error-code behaviour is literally the shared
`handleHist` for all three. -/
theorem claim_C7_market_parameterization (symbol period start_date end_date adjust : String)
    (prov : ProvFun) (df : DataFrame) :
    stock_us_hist symbol period start_date end_date adjust prov =
      handleHist usCfg symbol period start_date end_date adjust prov ∧
    stock_hk_hist symbol period start_date end_date adjust prov =
      handleHist hkCfg symbol period start_date end_date adjust prov ∧
    stock_zh_a_hist symbol period start_date end_date adjust prov =
      handleHist zhCfg symbol period start_date end_date adjust prov ∧
    usCfg.currency = "美元 (USD)" ∧ hkCfg.currency = "港元 (HKD)" ∧
    zhCfg.currency = "人民币 (CNY)" ∧
    containsSubstr (genReport usCfg symbol period start_date end_date adjust df)
      usCfg.currency ∧
    containsSubstr (genReport hkCfg symbol period start_date end_date adjust df)
      hkCfg.currency ∧
    containsSubstr (genReport zhCfg symbol period start_date end_date adjust df)
      zhCfg.currency ∧
    usCfg.defStart = stock_us_default_start ∧ usCfg.defEnd = stock_us_default_end ∧
    hkCfg.defStart = stock_hk_default_start ∧ hkCfg.defEnd = stock_hk_default_end ∧
    zhCfg.defStart = stock_zh_default_start ∧ zhCfg.defEnd = stock_zh_default_end ∧
    zhCfg.defStart ≠ hkCfg.defStart := by
  refine ⟨us_as_handleHist symbol period start_date end_date adjust prov,
    hk_as_handleHist symbol period start_date end_date adjust prov,
    zh_as_handleHist symbol period start_date end_date adjust prov,
    rfl, rfl, rfl, ?_, ?_, ?_, rfl, rfl, rfl, rfl, rfl, rfl, by decide⟩
  · exact genReport_contains_curBlock usCfg symbol period start_date end_date adjust df
  · exact genReport_contains_curBlock hkCfg symbol period start_date end_date adjust df
  · exact contains_trans _ _ _
      (genReport_contains_curBlock zhCfg symbol period start_date end_date adjust df)
      ⟨"", "  \n**成交量单位**: 手 (1手=100股)", rfl⟩

/-- Claim C8: the US handler is a deterministic pure function of its
arguments and the provider's response: with the shared logging sink made
explicit, the returned string does not depend on the sink's prior state
(so two calls with identical arguments against the same deterministic
provider yield byte-identical output), and it coincides with the pure
handler's output. -/
theorem claim_C8_deterministic (symbol period start_date end_date adjust : String)
    (prov : ProvFun) (s1 s2 : List String) :
    (stock_us_hist_logged symbol period start_date end_date adjust prov s1).1 =
      (stock_us_hist_logged symbol period start_date end_date adjust prov s2).1 ∧
    (stock_us_hist_logged symbol period start_date end_date adjust prov s1).1 =
      (stock_us_hist symbol period start_date end_date adjust prov).1 := by
  have key : ∀ sink : List String,
      (stock_us_hist_logged symbol period start_date end_date adjust prov sink).1 =
        (stock_us_hist symbol period start_date end_date adjust prov).1 := by
    intro sink
    cases h1 : validPeriod period with
    | false => simp [stock_us_hist_logged, stock_us_hist, h1]
    | true =>
      cases h2 : strptimeYmdOk start_date && strptimeYmdOk end_date with
      | false => simp [stock_us_hist_logged, stock_us_hist, h1, h2]
      | true =>
        cases h3 : prov symbol period start_date end_date adjust with
        | error e => simp [stock_us_hist_logged, stock_us_hist, h1, h2, h3]
        | ok df =>
          cases h4 : df.emptyB with
          | true => simp [stock_us_hist_logged, stock_us_hist, h1, h2, h3, h4]
          | false =>
            cases h5 : normalizeDates df with
            | error e => simp [stock_us_hist_logged, stock_us_hist, h1, h2, h3, h4, h5]
            | ok df2 => simp [stock_us_hist_logged, stock_us_hist, h1, h2, h3, h4, h5]
  exact ⟨(key s1).trans (key s2).symm, key s1⟩

theorem handleHist_calls (cfg : MarketConfig) (symbol period start_date end_date adjust : String)
    (prov : ProvFun) (h1 : validPeriod period = true)
    (h2 : strptimeYmdOk start_date = true) (h3 : strptimeYmdOk end_date = true) :
    (handleHist cfg symbol period start_date end_date adjust prov).2 =
      [(symbol, period, start_date, end_date, adjust)] := by
  cases hpr : prov symbol period start_date end_date adjust with
  | error e =>
    rw [handleHist_apiError cfg symbol period start_date end_date adjust prov e h1 h2 h3 hpr]
  | ok df =>
    cases h5 : df.emptyB with
    | true =>
      rw [handleHist_noData cfg symbol period start_date end_date adjust prov df h1 h2 h3 hpr h5]
    | false =>
      cases h6 : normalizeDates df with
      | error e =>
        rw [handleHist_fmtError cfg symbol period start_date end_date adjust prov df e
          h1 h2 h3 hpr h5 h6]
      | ok df2 =>
        rw [handleHist_success cfg symbol period start_date end_date adjust prov df df2
          h1 h2 h3 hpr h5 h6]

/-- Claim C9: when the period is valid and both dates parse but
start_date's parsed date is strictly after end_date's, the US handler does
not reject the request: the result is never an INVALID_PERIOD or
INVALID_DATE_FORMAT ErrorResult (whatever its message), and the provider
is invoked exactly once with the dates passed through unchanged. -/
theorem claim_C9_no_order_check (symbol period start_date end_date adjust : String)
    (prov : ProvFun) (h1 : validPeriod period = true)
    (h2 : strptimeYmdOk start_date = true) (h3 : strptimeYmdOk end_date = true)
    (_h4 : strptimeNum start_date > strptimeNum end_date) :
    (stock_us_hist symbol period start_date end_date adjust prov).2 =
      [(symbol, period, start_date, end_date, adjust)] ∧
    (∀ m, (stock_us_hist symbol period start_date end_date adjust prov).1 ≠
      jsonDumps2 m "INVALID_PERIOD") ∧
    (∀ m, (stock_us_hist symbol period start_date end_date adjust prov).1 ≠
      jsonDumps2 m "INVALID_DATE_FORMAT") := by
  rw [us_as_handleHist symbol period start_date end_date adjust prov]
  refine ⟨handleHist_calls usCfg symbol period start_date end_date adjust prov h1 h2 h3, ?_, ?_⟩
  all_goals
    cases hpr : prov symbol period start_date end_date adjust with
    | error e =>
      rw [handleHist_apiError usCfg symbol period start_date end_date adjust prov e h1 h2 h3 hpr]
      intro m
      exact jsonDumps2_ne_of_codes _ m "API_ERROR" _ (by decide) (by decide)
    | ok df =>
      cases h5 : df.emptyB with
      | true =>
        rw [handleHist_noData usCfg symbol period start_date end_date adjust prov df
          h1 h2 h3 hpr h5]
        intro m
        exact jsonDumps2_ne_of_codes _ m "NO_DATA_FOUND" _ (by decide) (by decide)
      | false =>
        cases h6 : normalizeDates df with
        | error e =>
          rw [handleHist_fmtError usCfg symbol period start_date end_date adjust prov df e
            h1 h2 h3 hpr h5 h6]
          intro m
          exact jsonDumps2_ne_of_codes _ m "API_ERROR" _ (by decide) (by decide)
        | ok df2 =>
          rw [handleHist_success usCfg symbol period start_date end_date adjust prov df df2
            h1 h2 h3 hpr h5 h6]
          intro m
          exact ne_of_firstChar _ _ (by
            rw [firstChar_genReport_us symbol period start_date end_date adjust df2,
              firstChar_jsonDumps2]
            decide)

/-- Claim C10: the adjust field is never validated: with a valid period
and dates, any adjust value — including values outside the documented
set, such as "xyz" — still reaches the provider (one recorded call in all
three handlers), and the shared label expression maps every adjust other
than "" and "qfq" to 后复权, so any successful report contains that
label. -/
theorem claim_C10_adjust_unvalidated (symbol period start_date end_date adjust : String)
    (prov : ProvFun) (df : DataFrame)
    (ha1 : adjust ≠ "") (ha2 : adjust ≠ "qfq")
    (h1 : validPeriod period = true)
    (h2 : strptimeYmdOk start_date = true) (h3 : strptimeYmdOk end_date = true) :
    adjustLabel adjust = "后复权" ∧
    (stock_us_hist symbol period start_date end_date adjust prov).2 =
      [(symbol, period, start_date, end_date, adjust)] ∧
    (stock_hk_hist symbol period start_date end_date adjust prov).2 =
      [(symbol, period, start_date, end_date, adjust)] ∧
    (stock_zh_a_hist symbol period start_date end_date adjust prov).2 =
      [(symbol, period, start_date, end_date, adjust)] ∧
    containsSubstr (genReport usCfg symbol period start_date end_date adjust df) "后复权" ∧
    containsSubstr (genReport hkCfg symbol period start_date end_date adjust df) "后复权" ∧
    containsSubstr (genReport zhCfg symbol period start_date end_date adjust df) "后复权" := by
  have hlabel : adjustLabel adjust = "后复权" := by
    simp [adjustLabel, ha1, ha2]
  refine ⟨hlabel, ?_, ?_, ?_, ?_, ?_, ?_⟩
  · rw [us_as_handleHist symbol period start_date end_date adjust prov]
    exact handleHist_calls usCfg symbol period start_date end_date adjust prov h1 h2 h3
  · rw [hk_as_handleHist symbol period start_date end_date adjust prov]
    exact handleHist_calls hkCfg symbol period start_date end_date adjust prov h1 h2 h3
  · rw [zh_as_handleHist symbol period start_date end_date adjust prov]
    exact handleHist_calls zhCfg symbol period start_date end_date adjust prov h1 h2 h3
  · rw [← hlabel]
    exact genReport_contains_label usCfg symbol period start_date end_date adjust df
  · rw [← hlabel]
    exact genReport_contains_label hkCfg symbol period start_date end_date adjust df
  · rw [← hlabel]
    exact genReport_contains_label zhCfg symbol period start_date end_date adjust df

/-- The normalized frame produced from `provSample`'s records. -/
def df2Sample : DataFrame :=
  DataFrame.mk ["日期", "收盘"] [["2021-01-04", "130.00"], ["2021-01-05", "131.00"]]

/-- Witness for claim C2 at period "hourly" with malformed dates. -/
theorem claim_C2_witness :
    stock_us_hist "AAPL" "hourly" "2021-01-01" "bad" "" provSample =
      (jsonDumps2 periodMsg "INVALID_PERIOD", []) ∧
    stock_hk_hist "AAPL" "hourly" "2021-01-01" "bad" "" provSample =
      (jsonDumps2 periodMsg "INVALID_PERIOD", []) ∧
    stock_zh_a_hist "AAPL" "hourly" "2021-01-01" "bad" "" provSample =
      (jsonDumps2 periodMsg "INVALID_PERIOD", []) :=
  claim_C2_invalid_period "AAPL" "hourly" "2021-01-01" "bad" "" provSample (by decide)

/-- Witness for claim C3 (amended) at start date "2021-01-01". -/
theorem claim_C3_witness :
    stock_us_hist "AAPL" "daily" "2021-01-01" "20210105" "" provSample =
      (jsonDumps2 dateMsg "INVALID_DATE_FORMAT", []) ∧
    stock_hk_hist "AAPL" "daily" "2021-01-01" "20210105" "" provSample =
      (jsonDumps2 dateMsg "INVALID_DATE_FORMAT", []) ∧
    stock_zh_a_hist "AAPL" "daily" "2021-01-01" "20210105" "" provSample =
      (jsonDumps2 dateMsg "INVALID_DATE_FORMAT", []) :=
  claim_C3_invalid_date "AAPL" "daily" "2021-01-01" "20210105" "" provSample
    (by decide) (Or.inl (by decide))

/-- Witness for claim C4 against the raising stub provider. -/
theorem claim_C4_witness :
    stock_us_hist "AAPL" "daily" "20210101" "20210105" "" provRaise =
      (jsonDumps2 ("获取美股历史数据失败: " ++ "Connection aborted") "API_ERROR",
        [("AAPL", "daily", "20210101", "20210105", "")]) ∧
    containsSubstr ("获取美股历史数据失败: " ++ "Connection aborted") "Connection aborted" ∧
    (stock_us_hist "AAPL" "daily" "20210101" "20210105" "" provRaise).1 ≠
      usReport "AAPL" "daily" "20210101" "20210105" "" df2Sample :=
  ⟨(claim_C4_api_error "AAPL" "daily" "20210101" "20210105" "" "Connection aborted" provRaise
      (by decide) (by decide) (by decide) rfl).1.1,
    (claim_C4_api_error "AAPL" "daily" "20210101" "20210105" "" "Connection aborted" provRaise
      (by decide) (by decide) (by decide) rfl).1.2.1,
    (claim_C4_api_error "AAPL" "daily" "20210101" "20210105" "" "Connection aborted" provRaise
      (by decide) (by decide) (by decide) rfl).1.2.2 df2Sample⟩

/-- Witness for claim C5 against the zero-record stub provider. -/
theorem claim_C5_witness :
    stock_us_hist "AAPL" "daily" "20210101" "20210105" "" provEmpty =
      (jsonDumps2 noDataMsg "NO_DATA_FOUND",
        [("AAPL", "daily", "20210101", "20210105", "")]) ∧
    stock_hk_hist "AAPL" "daily" "20210101" "20210105" "" provEmpty =
      (jsonDumps2 noDataMsg "NO_DATA_FOUND",
        [("AAPL", "daily", "20210101", "20210105", "")]) ∧
    stock_zh_a_hist "AAPL" "daily" "20210101" "20210105" "" provEmpty =
      (jsonDumps2 noDataMsg "NO_DATA_FOUND",
        [("AAPL", "daily", "20210101", "20210105", "")]) ∧
    jsonDumps2 noDataMsg "NO_DATA_FOUND" ≠ jsonDumps2 "boom" "API_ERROR" ∧
    jsonDumps2 noDataMsg "NO_DATA_FOUND" ≠
      usReport "AAPL" "daily" "20210101" "20210105" "" df2Sample :=
  ⟨(claim_C5_no_data "AAPL" "daily" "20210101" "20210105" "" provEmpty ["日期", "收盘"]
      (by decide) (by decide) (by decide) rfl).1,
    (claim_C5_no_data "AAPL" "daily" "20210101" "20210105" "" provEmpty ["日期", "收盘"]
      (by decide) (by decide) (by decide) rfl).2.1,
    (claim_C5_no_data "AAPL" "daily" "20210101" "20210105" "" provEmpty ["日期", "收盘"]
      (by decide) (by decide) (by decide) rfl).2.2.1,
    (claim_C5_no_data "AAPL" "daily" "20210101" "20210105" "" provEmpty ["日期", "收盘"]
      (by decide) (by decide) (by decide) rfl).2.2.2.1 "boom",
    (claim_C5_no_data "AAPL" "daily" "20210101" "20210105" "" provEmpty ["日期", "收盘"]
      (by decide) (by decide) (by decide) rfl).2.2.2.2 df2Sample⟩

/-- Witness for claim C6 against the two-record stub provider. -/
theorem claim_C6_witness :
    (stock_us_hist "AAPL" "daily" "20210101" "20210105" "" provSample).1 =
      usReport "AAPL" "daily" "20210101" "20210105" "" df2Sample ∧
    df2Sample.rows.length = 2 ∧
    containsSubstr (stock_us_hist "AAPL" "daily" "20210101" "20210105" "" provSample).1
      "AAPL" ∧
    containsSubstr (stock_us_hist "AAPL" "daily" "20210101" "20210105" "" provSample).1
      (toString 2) ∧
    containsSubstr (stock_us_hist "AAPL" "daily" "20210101" "20210105" "" provSample).1
      "不复权" ∧
    mdTableLines df2Sample.columns df2Sample.rows =
      mdRow df2Sample.columns :: mdRow (df2Sample.columns.map sepCell) ::
        df2Sample.rows.map mdRow ∧
    (df2Sample.rows.map mdRow).length = 2 :=
  claim_C6_us_success_report provSample ["日期", "收盘"]
    [["20210104", "130.00"], ["20210105", "131.00"]] 2 df2Sample rfl
    (by decide) (by decide) rfl rfl

/-- Witness for claim C9 with start date 20240214 after end date 20210101. -/
theorem claim_C9_witness :
    (stock_us_hist "AAPL" "daily" "20240214" "20210101" "" provSample).2 =
      [("AAPL", "daily", "20240214", "20210101", "")] ∧
    (stock_us_hist "AAPL" "daily" "20240214" "20210101" "" provSample).1 ≠
      jsonDumps2 periodMsg "INVALID_PERIOD" ∧
    (stock_us_hist "AAPL" "daily" "20240214" "20210101" "" provSample).1 ≠
      jsonDumps2 dateMsg "INVALID_DATE_FORMAT" :=
  ⟨(claim_C9_no_order_check "AAPL" "daily" "20240214" "20210101" "" provSample
      (by decide) (by decide) (by decide) (by decide)).1,
    (claim_C9_no_order_check "AAPL" "daily" "20240214" "20210101" "" provSample
      (by decide) (by decide) (by decide) (by decide)).2.1 periodMsg,
    (claim_C9_no_order_check "AAPL" "daily" "20240214" "20210101" "" provSample
      (by decide) (by decide) (by decide) (by decide)).2.2 dateMsg⟩

/-- Witness for claim C10 at adjust "xyz". -/
theorem claim_C10_witness :
    adjustLabel "xyz" = "后复权" ∧
    (stock_us_hist "AAPL" "daily" "20210101" "20210105" "xyz" provSample).2 =
      [("AAPL", "daily", "20210101", "20210105", "xyz")] ∧
    (stock_hk_hist "AAPL" "daily" "20210101" "20210105" "xyz" provSample).2 =
      [("AAPL", "daily", "20210101", "20210105", "xyz")] ∧
    (stock_zh_a_hist "AAPL" "daily" "20210101" "20210105" "xyz" provSample).2 =
      [("AAPL", "daily", "20210101", "20210105", "xyz")] ∧
    containsSubstr (genReport usCfg "AAPL" "daily" "20210101" "20210105" "xyz" df2Sample)
      "后复权" ∧
    containsSubstr (genReport hkCfg "AAPL" "daily" "20210101" "20210105" "xyz" df2Sample)
      "后复权" ∧
    containsSubstr (genReport zhCfg "AAPL" "daily" "20210101" "20210105" "xyz" df2Sample)
      "后复权" :=
  claim_C10_adjust_unvalidated "AAPL" "daily" "20210101" "20210105" "xyz" provSample df2Sample
    (by decide) (by decide) (by decide) (by decide) (by decide)
